import Mathlib

/-!
Verification of the msmaccelerator2 coordination layer against its
natural-language specification.

This file shallowly embeds the parts of the code base that the claims
C1 .. C10 are about:

  * `msmaccelerator/core/message.py`   : the message envelope
    (`pack_message`, `squash_unicode`, attribute access on `Message`)
  * `msmaccelerator/core/device.py`    : the worker runtime
    (`Device.start`, `Device.send_recv` and its retry loop)
  * `msmaccelerator/server/baseserver.py` and `server.py` : the dispatch
    step `_dispatch` and the server-side `send_message`
  * `msmaccelerator/server/sampling.py` : `BaseSampler.select`,
    `CentroidSampler` (trait-change callbacks, `select`) and
    `CountsSampler.reset_weights`
  * `msmaccelerator/server/adaptiveserver.py` : the message handlers
    (`_register_Simulator`, `modeler_done`, `simulation_done`,
    `set_beta`, `get_beta`)
  * `msmaccelerator/core/database.py`  : the `Trajectory` registry row

Numeric values are embedded as rationals (the floats of the source, with
the numeric tolerances written out exactly); the floating-point power
`np.power` is an external numeric kernel and is passed in as a function
parameter.  Sources of nondeterminism in the code (`uuid.uuid4()`,
`time.time()`, `np.random.rand()`, `np.random.randint`) are passed in as
explicit oracle arguments.  Python exceptions that can cross a function
boundary are modelled with `Except` / an explicit error component.
-/

namespace MSMAccelerator

/-- JSON-like Python 2 value, as carried inside msmaccelerator messages.
Python 2 distinguishes bytestrings (`str`, constructor `jstr`) from
`unicode` strings (constructor `justr`); both carry their text content
here.  `jdict` keeps the key order of construction (adequate because
`pack_message` and `squash_unicode` preserve key order). -/
inductive JVal : Type where
  | jstr (s : String)
  | justr (s : String)
  | jnum (q : ℚ)
  | jlist (l : List JVal)
  | jdict (entries : List (JVal × JVal))

mutual

/-- `message.squash_unicode` : coerce unicode back to bytestrings,
recursively through dicts (keys and values) and lists.  Encoding a
unicode string as UTF-8 keeps its text content, so the coercion is a
constructor change here. -/
def squash_unicode : JVal → JVal
  | .jstr s => .jstr s
  | .justr s => .jstr s
  | .jnum q => .jnum q
  | .jlist l => .jlist (squashList l)
  | .jdict entries => .jdict (squashDict entries)

/-- The list case of `squash_unicode` (`for i, v in enumerate(obj)`). -/
def squashList : List JVal → List JVal
  | [] => []
  | v :: rest => squash_unicode v :: squashList rest

/-- The dict case of `squash_unicode` (`for key in obj.keys()`: squash the
value, and re-key unicode keys by their squashed form). -/
def squashDict : List (JVal × JVal) → List (JVal × JVal)
  | [] => []
  | (k, v) :: rest => (squash_unicode k, squash_unicode v) :: squashDict rest

end

mutual

/-- Python 2 `==` on message values.  A bytestring and a unicode string
compare equal exactly when the bytes are pure ASCII and decode to the
same text (Python 2 decodes the bytes as ASCII for a mixed comparison
and treats a decode failure as inequality). -/
def pyEq : JVal → JVal → Bool
  | .jstr s, .jstr t => s = t
  | .justr s, .justr t => s = t
  | .jstr s, .justr t => s.data.all (fun c => c.toNat < 128) && s = t
  | .justr s, .jstr t => t.data.all (fun c => c.toNat < 128) && s = t
  | .jnum p, .jnum q => p = q
  | .jlist l, .jlist m => pyEqList l m
  | .jdict l, .jdict m => pyEqDict l m
  | _, _ => false

/-- Pointwise Python 2 `==` on lists. -/
def pyEqList : List JVal → List JVal → Bool
  | [], [] => true
  | x :: xs, y :: ys => pyEq x y && pyEqList xs ys
  | _, _ => false

/-- Pointwise Python 2 `==` on dict entries, in construction order
(adequate here because the round trip preserves key order). -/
def pyEqDict : List (JVal × JVal) → List (JVal × JVal) → Bool
  | [], [] => true
  | (k, v) :: xs, (l, w) :: ys => pyEq k l && pyEq v w && pyEqDict xs ys
  | _, _ => false

end

/-- `message.pack_message(msg_type, sender_id, content)` : typecheck the
arguments (`msg_type` must be a Python 2 `str`, i.e. a bytestring, and
`content` a dict, else `ValueError`), then build the message dict with a
header holding `sender_id`, a fresh `msg_id` (`uuid.uuid4()`, supplied
here by the oracle argument `fresh_msg_id`) and the current `time`
(`time.time()`, oracle argument `now`), and squash unicode over the
whole structure.  `sender_id` is the uuid string the devices pass in
(`str(sender_id)` is the identity on it). -/
def pack_message (msg_type : JVal) (sender_id : String) (content : JVal)
    (fresh_msg_id : String) (now : ℚ) : Except String JVal :=
  match msg_type, content with
  | .jstr t, .jdict entries =>
      .ok (squash_unicode (.jdict [
        (.jstr "header", .jdict [
          (.jstr "sender_id", .jstr sender_id),
          (.jstr "msg_id", .jstr fresh_msg_id),
          (.jstr "msg_type", .jstr t),
          (.jstr "time", .jnum now)]),
        (.jstr "content", .jdict entries)]))
  | .jstr _, _ => .error "content must be dict"
  | _, _ => .error "msg_type must be string"

/-- Does a dict key (a bytestring) match an attribute name?  Attribute
names on the `Message` wrapper are plain Python 2 strings. -/
def keyMatches (v : JVal) (k : String) : Bool :=
  match v with
  | .jstr s => s = k
  | _ => false

/-- Key lookup in a message dict, modelling attribute access on the
`Message` wrapper class (`msg.header`, `msg.content`, ...): the wrapper
maps dict keys to attributes. -/
def jlookup (v : JVal) (k : String) : Option JVal :=
  match v with
  | .jdict entries =>
      (entries.find? (fun kv => keyMatches kv.1 k)).map (fun kv => kv.2)
  | _ => none

/-- `msg.header.<k>` : read a header field back out of a packed message. -/
def msgHeaderField (m : JVal) (k : String) : Option JVal :=
  (jlookup m "header").bind (fun h => jlookup h k)

/-- `msg.content` : read the content back out of a packed message. -/
def msgContent (m : JVal) : Option JVal :=
  jlookup m "content"

/-! ## Worker runtime: `core/device.py` -/

/-- The state of a device-side ZMQ REQ socket that matters to routing:
the explicitly configured identity.  `Device.start` sets it with
`setsockopt(zmq.IDENTITY, self.uuid)`; when it is never set (`none`),
the transport assigns a fresh ephemeral routing id that is unrelated to
the worker uuid. -/
structure DeviceSocket where
  identity : Option String
deriving DecidableEq

/-- The socket built in `Device.start` : a REQ socket whose identity is
set to the device uuid before connecting. -/
def deviceStartSocket (uuid : String) : DeviceSocket :=
  { identity := some uuid }

/-- The socket built on the retry path of `Device.send_recv`
(`self.socket.close(); self.socket = self.ctx.socket(zmq.REQ);
self.socket.connect(...)`) : a fresh REQ socket.  No
`setsockopt(zmq.IDENTITY, ...)` call appears on this path, so the
identity is left unset. -/
def deviceRetrySocket : DeviceSocket :=
  { identity := none }

/-- One request going out in `send_recv` : the identity of the socket it
is sent on, and the `sender_id` that `send_message`/`pack_message` put
in the message header (always `self.uuid`). -/
structure SentRequest where
  socketIdentity : Option String
  senderId : String
deriving DecidableEq

/-- Result of `Device.send_recv`. -/
inductive SendRecvResult : Type where
  | received (attemptsUsed : ℕ)
  | ioError (msg : String)
deriving DecidableEq

/-- The `for i in range(retries)` loop of `Device.send_recv` : on every
iteration, send the request on the current socket (`self.send_message`),
then poll; if the poll oracle reports a reply within the timeout, return
it, else tear the socket down and loop with a fresh one.  Falling out of
the loop raises `IOError`.  `serverReplies i` is the outcome of the poll
on attempt number `i` (counted from 0); the returned list records each
request actually sent. -/
def sendRecvLoop (uuid : String) (serverReplies : ℕ → Bool) :
    ℕ → ℕ → DeviceSocket → SendRecvResult × List SentRequest
  | 0, _, _ => (.ioError "Network timeout. Server is unresponsive.", [])
  | fuel + 1, i, sock =>
      let req : SentRequest := { socketIdentity := sock.identity, senderId := uuid }
      if serverReplies i then
        (.received (i + 1), [req])
      else
        let rest := sendRecvLoop uuid serverReplies fuel (i + 1) deviceRetrySocket
        (rest.1, req :: rest.2)

/-- `Device.send_recv(msg_type, content, timeout, retries)` : runs the
retry loop starting from the socket that `Device.start` configured. -/
def send_recv (uuid : String) (serverReplies : ℕ → Bool) (retries : ℕ) :
    SendRecvResult × List SentRequest :=
  sendRecvLoop uuid serverReplies retries 0 (deviceStartSocket uuid)

/-! ## Dispatch: `server/baseserver.py` and `server/server.py` -/

/-- A Python exception escaping a handler or the dispatch step. -/
inductive PyError : Type where
  | typeError (msg : String)
  | unboundLocalError (name : String)
  | attributeError (name : String)
  | assertionError (msg : String)
  | handlerError (msg : String)
deriving DecidableEq

/-- A handler method on the server : takes `(header, content)` and either
finishes or raises. -/
def Handler : Type := JVal → JVal → Except PyError Unit

/-- `BaseServer._dispatch` (`server/baseserver.py`) : after logging the
inbound message, look up `getattr(self, msg.header.msg_type)` inside
`try/except AttributeError`.  On `AttributeError` the code logs
`RESPONDER NOT FOUND FOR MESSAGE` -- and then still falls through to
`responder(msg.header, msg.content)` with the local `responder` never
bound, which raises `UnboundLocalError` out of `_dispatch`.  When a
responder is found it is invoked with no surrounding `try/except`, so
any exception it raises escapes `_dispatch` as well.  The second
component is the log produced. -/
def baseServerDispatch (handlers : String → Option Handler)
    (msgType : String) (header content : JVal) :
    Except PyError Unit × List String :=
  let logs := ["RECEIVING MESSAGE"]
  match handlers msgType with
  | none =>
      (.error (.unboundLocalError "responder"),
       logs ++ ["RESPONDER NOT FOUND FOR MESSAGE: " ++ msgType])
  | some responder => (responder header content, logs)

/-- `ServerBase._dispatch` (`server/server.py`) : the older variant with
no `try/except` at all; a missing responder makes the bare
`getattr(self, msg.header.msg_type)` raise `AttributeError` out of
`_dispatch`, and handler exceptions likewise escape. -/
def serverBaseDispatch (handlers : String → Option Handler)
    (msgType : String) (header content : JVal) : Except PyError Unit :=
  match handlers msgType with
  | none => .error (.attributeError msgType)
  | some responder => responder header content

/-- A call to `BaseServer.send_message(client_id, msg_type, content)`.
The `content` parameter has no default in the server classes (unlike
`Device.send_message`), so a call site that omits it raises `TypeError`
before anything is sent.  On a complete call the message is packed with
`pack_message(msg_type, self.uuid, content)` and sent on the ROUTER
stream addressed to `client_id` (returned with the message). -/
def serverSendMessage (serverUuid clientId msgType : String)
    (content : Option JVal) (fresh_msg_id : String) (now : ℚ) :
    Except PyError (String × JVal) :=
  match content with
  | none =>
      .error (.typeError "send_message() takes exactly 4 arguments (3 given)")
  | some c =>
      match pack_message (.jstr msgType) serverUuid c fresh_msg_id now with
      | .ok m => .ok (clientId, m)
      | .error e => .error (.handlerError e)

/-! ## Sampling policy: `server/sampling.py` and
`core/markovstatemodel.py` -/

/-- The fields of the `MarkovStateModel` artifact that the sampling
policy consumes: the transition-count matrix (dense rows here; the
sampler only ever takes row sums of the sparse matrix), the
state -> (trajectory index, frame index) generator table, and the source
trajectory paths.  The artifact's other fields (populations, mapping,
assignments, ...) are never read by the sampler. -/
structure MarkovStateModel where
  counts : List (List ℚ)
  generator_indices : List (ℕ × ℕ)
  traj_filenames : List String
deriving DecidableEq

/-- The mutable trait state of the sampler objects
(`BaseSampler`/`CentroidSampler`/`CountsSampler`).  `weights` is `none`
when the `CNumpyArray` trait has never been assigned. -/
structure SamplerState where
  seed_structures : String
  model_fn : Option String
  model : Option MarkovStateModel
  weights : Option (List ℚ)
  cumulative_weights : List ℚ
  beta : ℚ
deriving DecidableEq

/-- `np.cumsum` starting from a partial sum `acc`. -/
def cumsumFrom (acc : ℚ) : List ℚ → List ℚ
  | [] => []
  | x :: xs => (acc + x) :: cumsumFrom (acc + x) xs

/-- `np.cumsum` : the prefix sums of a vector. -/
def cumsum (l : List ℚ) : List ℚ :=
  cumsumFrom 0 l

/-- The tolerance of `np.testing.assert_almost_equal(..., 1)` at its
default `decimal=7` : the assertion passes iff
`abs(desired - actual) < 1.5 * 10**-7`. -/
def almostEqualTol : ℚ :=
  15 / 100000000

/-- The check performed at the end of `CentroidSampler._weights_changed`:
`np.testing.assert_almost_equal(self.cumulative_weights[-1], 1)`.
Returns the error message of the exception it raises, if any (indexing
`[-1]` on an empty array raises as well). -/
def weightsSumCheck (cw : List ℚ) : Option String :=
  match cw.getLast? with
  | none => some "IndexError: index -1 is out of bounds"
  | some last =>
      if |last - 1| < almostEqualTol then none
      else some "The weights dont sum to 1"

/-- `CentroidSampler._weights_changed(old, new)` : the callback the
traits machinery notifies after `self.weights` has been assigned *and*
found changed.  It assigns `self.cumulative_weights = np.cumsum(new)`
(a `CNumpyArray` store, unconditional -- no handler is attached to
`cumulative_weights`) and then runs the almost-equal assertion.  The
weights value itself was already stored by the trait `__set__` before
the notification, so the returned state keeps it in either case; the
second component is the exception, if one is raised. -/
def weights_changed (st : SamplerState) (new : List ℚ) :
    SamplerState × Option String :=
  let cw := cumsum new
  ({ st with cumulative_weights := cw }, weightsSumCheck cw)

/-- Assignment to the `weights` trait: `CNumpyArray.__set__`
(`core/traitlets.py`) stores the validated value unconditionally
(`obj._trait_values[self.name] = new_value`) and then notifies
`_weights_changed` only when `np.any(old_value != new_value)` -- that
is, only when the stored vector actually changes (a never-assigned
trait reads as its default `np.array([])`, modelled by `getD []`). -/
def setWeightsTrait (st : SamplerState) (new : List ℚ) :
    SamplerState × Option String :=
  let old := st.weights.getD []
  let st1 := { st with weights := some new }
  if old = new then (st1, none)
  else weights_changed st1 new

/-- The weight-setting a `_model_changed`-style hook performs
(`CountsSampler.reset_weights` once a model exists): assign the weights
trait (guarded notification, possible assertion), then assign
`self.cumulative_weights = np.cumsum(self.weights)` -- an unconditional
`CNumpyArray` store reached only when the weights assignment did not
raise. -/
def hookSetWeights (st : SamplerState) (w : List ℚ) :
    SamplerState × Option String :=
  let r := setWeightsTrait st w
  match r.2 with
  | some e => (r.1, some e)
  | none => ({ r.1 with cumulative_weights := cumsum w }, none)

/-- The registration chain fired by `sampler.model_fn = fn` (as
`AdaptiveServer.modeler_done` does).  `model_fn` is a `Unicode` trait:
its `__set__` stores the value and notifies `_model_fn_changed` only
when the path actually changes (default value `""`, modelled by
`getD ""`) -- re-registering the current path stores it again and does
nothing else.  On a new path, `_model_fn_changed` closes the old model
handle and assigns `self.model = MarkovStateModel.load(fn)`; the
`Instance` trait compares old and new by object identity and the loaded
model is a fresh object, so the subclass hook `_model_changed` always
fires here: it computes the new weight vector (`computeWeights`, the
scheme the subclass uses) and runs `hookSetWeights`.  The model swap
precedes any weight computation or check; an exception raised by the
weights assertion propagates out (second component) with the new model
already installed. -/
def registerModel (load : String → MarkovStateModel)
    (computeWeights : MarkovStateModel → List ℚ)
    (st : SamplerState) (fn : String) : SamplerState × Option String :=
  let oldFn := st.model_fn.getD ""
  let st1 := { st with model_fn := some fn }
  if oldFn = fn then (st1, none)
  else
    let m := load fn
    let st2 := { st1 with model := some m }
    hookSetWeights st2 (computeWeights m)

/-- The weight scheme of `CountsSampler.reset_weights` :
`counts_per_state = model.counts.sum(axis=1) + 10**-8`, then
`w = np.power(counts_per_state, beta - 1)`, normalized to
`w / np.sum(w)`.  `npPower` is the floating-point power kernel
`np.power`, passed in as a parameter. -/
def countsWeights (npPower : ℚ → ℚ → ℚ) (beta : ℚ)
    (m : MarkovStateModel) : List ℚ :=
  let counts_per_state := m.counts.map (fun row => row.sum + 1 / 100000000)
  let w := counts_per_state.map (fun c => npPower c (beta - 1))
  w.map (fun x => x / w.sum)

/-- `CountsSampler.reset_weights` : a no-op when no model is registered
yet; otherwise assign `self.weights` (the guarded `CNumpyArray`
assignment, notifying `_weights_changed` only on an actual change) and
then `self.cumulative_weights`. -/
def reset_weights (npPower : ℚ → ℚ → ℚ) (st : SamplerState) :
    SamplerState × Option String :=
  match st.model with
  | none => (st, none)
  | some m => hookSetWeights st (countsWeights npPower st.beta m)

/-- The registration chain with the `CountsSampler` weight scheme (the
sampler class the `AdaptiveServer` instantiates). -/
def registerModelCounts (npPower : ℚ → ℚ → ℚ)
    (load : String → MarkovStateModel) (st : SamplerState) (fn : String) :
    SamplerState × Option String :=
  registerModel load (countsWeights npPower st.beta) st fn

/-- What `select` returns : one frame of a trajectory file, either from
the configured seed structures or from a generator trajectory of the
model. -/
inductive Selection : Type where
  | seedFrame (filename : String) (frame : ℕ)
  | genFrame (filename : String) (frame : ℕ)
deriving DecidableEq

/-- `np.sum(self.cumulative_weights < np.random.rand())` : the number of
entries of `cw` strictly below the uniform draw `u`. -/
def countLt (cw : List ℚ) (u : ℚ) : ℕ :=
  (cw.filter (fun x => decide (x < u))).length

/-- `BaseSampler.select` : raise if the seed-structures file is missing
on the local filesystem (`seedExists` is the `os.path.exists` oracle);
otherwise load the file (`seedLen` frames) and return the frame at
`np.random.randint(len(traj))`.  The uniform draw in `[0, seedLen)` is
modelled as `r % seedLen` for the oracle `r` (`randint` raises when the
file has no frames). -/
def baseSelect (st : SamplerState) (seedExists : Bool) (seedLen r : ℕ) :
    Except String Selection :=
  if seedExists = false then
    .error "I couldnt find the seed_structures file on the local filesystem"
  else if seedLen = 0 then
    .error "ValueError: low >= high"
  else
    .ok (.seedFrame st.seed_structures (r % seedLen))

/-- `CentroidSampler.select` (inherited unchanged by `CountsSampler`) :
when `self.model is None or self.weights is None or
len(self.weights) == 0`, fall back to `BaseSampler.select`; otherwise
take `index = np.sum(self.cumulative_weights < np.random.rand())` (with
`u` the uniform draw) and return the frame named by
`generator_indices[index]` inside `traj_filenames`. -/
def centroidSelect (st : SamplerState) (seedExists : Bool)
    (seedLen r : ℕ) (u : ℚ) : Except String Selection :=
  match st.model, st.weights with
  | some m, some (w0 :: rest) =>
      let _ := w0
      let _ := rest
      let index := countLt st.cumulative_weights u
      match m.generator_indices.get? index with
      | none => .error "IndexError: generator_indices"
      | some tf =>
          match m.traj_filenames.get? tf.1 with
          | none => .error "IndexError: traj_filenames"
          | some fname => .ok (.genFrame fname tf.2)
  | _, _ => baseSelect st seedExists seedLen r

/-- `BaseSampler.get_state` : serialize the selected frame with the
configured state builder (`statebuilder.build(self.select())`, an
external collaborator passed in as `build`). -/
def get_state (build : Selection → String) (st : SamplerState)
    (seedExists : Bool) (seedLen r : ℕ) (u : ℚ) : Except String String :=
  (centroidSelect st seedExists seedLen r u).map build

/-! ## Server handlers: `server/adaptiveserver.py` and
`core/database.py` -/

/-- A row of the `trajectories` table (`database.Trajectory`): columns
`time`, `protocol`, `path` (plus an autoincrement id). -/
structure TrajectoryRecord where
  time : ℚ
  protocol : String
  path : String
deriving DecidableEq

/-- A row of the `models` table (`database.Model`). -/
structure ModelRecord where
  time : ℚ
  protocol : String
  path : String
deriving DecidableEq

/-- Everything `AdaptiveServer._register_Simulator` produces: the
starting-state file it writes (name and serialized contents), the
selection that produced it, and the `simulate` message it sends to the
registering worker. -/
structure SimulateReply where
  starting_state_fn : String
  written_state : String
  selection : Selection
  target : String
  message : JVal

/-- `AdaptiveServer._register_Simulator(sender_id, state_format,
traj_format)` : assert the state format, write
`sampler.get_state()` to
`starting_states_outdir/<sender_id>.<state_format>` (the format string
`'%s.%s'` produces a double dot, since the format already starts with
one), and send a `simulate` message back to `sender_id` whose content
carries the starting-state path, the topology pdb and the output
trajectory path `traj_outdir/<sender_id><traj_format>`.
`os.path.join` is modelled by `++ "/" ++` and `os.path.abspath` as the
identity on the already-rooted strings. -/
def register_Simulator (build : Selection → String) (serverUuid : String)
    (starting_states_outdir traj_outdir topology_pdb : String)
    (st : SamplerState) (seedExists : Bool) (seedLen r : ℕ) (u : ℚ)
    (senderId state_format traj_format : String)
    (fresh_msg_id : String) (now : ℚ) : Except String SimulateReply :=
  if state_format = ".xml" ∨ state_format = ".inpcrd" then
    let fn := starting_states_outdir ++ "/" ++ senderId ++ "." ++ state_format
    match centroidSelect st seedExists seedLen r u with
    | .error e => .error e
    | .ok sel =>
        let content : JVal := .jdict [
          (.jstr "starting_state", .jdict [
            (.jstr "protocol", .jstr "localfs"),
            (.jstr "path", .jstr fn)]),
          (.jstr "topology_pdb", .jdict [
            (.jstr "protocol", .jstr "localfs"),
            (.jstr "path", .jstr topology_pdb)]),
          (.jstr "output", .jdict [
            (.jstr "protocol", .jstr "localfs"),
            (.jstr "path", .jstr (traj_outdir ++ "/" ++ senderId ++ traj_format))])]
        match pack_message (.jstr "simulate") serverUuid content fresh_msg_id now with
        | .ok m => .ok ⟨fn, build sel, sel, senderId, m⟩
        | .error e => .error e
  else
    .error "AssertionError: invalid state format"

/-- `AdaptiveServer.modeler_done(header, content)` : assert the localfs
protocol, register the model with the sampler by assigning
`self.sampler.model_fn = content.output.path` (the full trait chain of
`registerModelCounts`), and then call
`self.send_message(header.sender_id, 'acknowledge_receipt')` -- a call
that omits the required `content` parameter of
`BaseServer.send_message` and therefore raises `TypeError`, so the
`session.add(Model(...))`/`commit` below it is never reached.  Returns
the sampler state, the models table and the exception escaping the
handler, if any. -/
def modeler_done (npPower : ℚ → ℚ → ℚ)
    (load : String → MarkovStateModel) (serverUuid : String)
    (st : SamplerState) (models : List ModelRecord)
    (senderId : String) (headerTime : ℚ)
    (contentProtocol contentPath : String)
    (fresh_msg_id : String) (now : ℚ) :
    SamplerState × List ModelRecord × Except PyError Unit :=
  if contentProtocol = "localfs" then
    let r := registerModelCounts npPower load st contentPath
    match r.2 with
    | some e => (r.1, models, .error (.handlerError e))
    | none =>
        match serverSendMessage serverUuid senderId "acknowledge_receipt"
            none fresh_msg_id now with
        | .error e => (r.1, models, .error e)
        | .ok _ =>
            (r.1, models ++ [⟨headerTime, contentProtocol, contentPath⟩],
             .ok ())
  else
    (st, models, .error (.assertionError "content.output.protocol"))

/-- `AdaptiveServer.simulation_done(header, content)` : first statement
is `self.send_message(header.sender_id, 'acknowledge_receipt')`, again
omitting the required `content` parameter; only after it would the
handler log a critical message when `content.output.path` does not
exist (`fsExists` oracle) and append the `Trajectory` row.  Returns the
trajectories table, the critical log lines, and the exception escaping
the handler, if any. -/
def simulation_done (serverUuid : String) (fsExists : String → Bool)
    (registry : List TrajectoryRecord) (senderId : String)
    (headerTime : ℚ) (contentProtocol contentPath : String)
    (fresh_msg_id : String) (now : ℚ) :
    List TrajectoryRecord × List String × Except PyError Unit :=
  match serverSendMessage serverUuid senderId "acknowledge_receipt"
      none fresh_msg_id now with
  | .error e => (registry, [], .error e)
  | .ok _ =>
      let logs :=
        if fsExists contentPath then []
        else ["Output file returned by simulation does not exist. " ++ contentPath]
      (registry ++ [⟨headerTime, contentProtocol, contentPath⟩], logs, .ok ())

/-- `AdaptiveServer.set_beta(header, content)` : inside
`try/except Exception`, read `content.value` (raising
`AttributeError` when absent, modelled by `contentValue = none`) and
assign `self.sampler.beta`, which fires
`CountsSampler._beta_changed -> reset_weights` -- the `Float` trait,
like the others, stores the value and notifies only when it actually
changes, so re-setting the current beta skips the recompute; any
exception lands in the `except` branch, which replies
`{status: failure, msg}`; otherwise the reply is `{status: success}`.
Both replies pass an explicit `content` to `send_message`.  Returns the
sampler state and the reply sent. -/
def set_beta (npPower : ℚ → ℚ → ℚ) (serverUuid : String)
    (st : SamplerState) (senderId : String) (contentValue : Option ℚ)
    (fresh_msg_id : String) (now : ℚ) :
    SamplerState × Except PyError (String × JVal) :=
  match contentValue with
  | none =>
      (st, serverSendMessage serverUuid senderId "set_beta"
        (some (.jdict [
          (.jstr "status", .jstr "failure"),
          (.jstr "msg", .jstr "Message instance has no attribute value")]))
        fresh_msg_id now)
  | some v =>
      let old := st.beta
      let st1 := { st with beta := v }
      if old = v then
        (st1, serverSendMessage serverUuid senderId "set_beta"
          (some (.jdict [(.jstr "status", .jstr "success")]))
          fresh_msg_id now)
      else
      let res := reset_weights npPower st1
      match res.2 with
      | some e =>
          (res.1, serverSendMessage serverUuid senderId "set_beta"
            (some (.jdict [
              (.jstr "status", .jstr "failure"),
              (.jstr "msg", .jstr e)]))
            fresh_msg_id now)
      | none =>
          (res.1, serverSendMessage serverUuid senderId "set_beta"
            (some (.jdict [(.jstr "status", .jstr "success")]))
            fresh_msg_id now)

/-- `AdaptiveServer.get_beta(header, content)` : reply with
`{beta: self.sampler.beta, status: 'sucess'}` (the status string is
spelled exactly as in the source) on the `response` message type; the
surrounding `try/except AttributeError` only triggers when the sampler
attribute itself is missing, which cannot happen after server start. -/
def get_beta (serverUuid : String) (st : SamplerState)
    (senderId : String) (fresh_msg_id : String) (now : ℚ) :
    Except PyError (String × JVal) :=
  serverSendMessage serverUuid senderId "response"
    (some (.jdict [
      (.jstr "beta", .jnum st.beta),
      (.jstr "status", .jstr "sucess")]))
    fresh_msg_id now

/-- The `status` field of the content of a packed reply message. -/
def replyStatus (m : JVal) : Option JVal :=
  (msgContent m).bind (fun c => jlookup c "status")

/-- A power kernel usable as a concrete stand-in for `np.power` in
witnesses: it sends every base to 1 at exponent 0. -/
def pow0 : ℚ → ℚ → ℚ :=
  fun _ e => if e = 0 then 1 else 0

/-- A field of the content of a reply that was successfully sent
(`none` when the send raised instead). -/
def sentField (r : Except PyError (String × JVal)) (k : String) : Option JVal :=
  match r with
  | .ok p => (msgContent p.2).bind (fun c => jlookup c k)
  | .error _ => none

/-- The routing target of a reply that was successfully sent. -/
def sentTarget (r : Except PyError (String × JVal)) : Option String :=
  match r with
  | .ok p => some p.1
  | .error _ => none

/-- A concrete model for witnesses and counterexamples. -/
def mOld : MarkovStateModel :=
  { counts := [[1]], generator_indices := [(0, 0)], traj_filenames := ["old.h5"] }

/-- A second concrete model, distinct from `mOld`. -/
def mNew : MarkovStateModel :=
  { counts := [[2]], generator_indices := [(0, 0)], traj_filenames := ["new.h5"] }

/-- A sampler state holding `mOld`, for the registration scenario. -/
def st2start : SamplerState :=
  { seed_structures := "seeds.pdb", model_fn := some "old.h5",
    model := some mOld, weights := none, cumulative_weights := [], beta := 1 }

/-- A weight vector summing to 1.00003, the sum the spec calls "within
tolerance". -/
def badWeights : List ℚ :=
  [1 / 2, 1 / 2 + 3 / 100000]

/-- A concrete three-state counts matrix for the beta = 1 witness. -/
def c7model : MarkovStateModel :=
  { counts := [[2, 1], [5], [9, 9]], generator_indices := [],
    traj_filenames := [] }

/-- A concrete two-state model whose generator table is used by the
inverse-CDF witness. -/
def m5 : MarkovStateModel :=
  { counts := [[3], [4]], generator_indices := [(0, 0), (0, 5)],
    traj_filenames := ["gen.h5"] }

/-- A sampler state carrying `m5` with weights `[1/2, 1/2]`. -/
def st5 : SamplerState :=
  { seed_structures := "seeds.pdb", model_fn := some "m.h5",
    model := some m5, weights := some [1 / 2, 1 / 2],
    cumulative_weights := [1 / 2, 1], beta := 1 }

/-- A freshly booted sampler state: no model, no weights. -/
def st8 : SamplerState :=
  { seed_structures := "ala5.pdb", model_fn := none, model := none,
    weights := none, cumulative_weights := [], beta := 1 }

/-! ## Theorems -/

theorem sendRecvLoop_length_le (uuid : String) (f : ℕ → Bool) :
    ∀ (fuel i : ℕ) (s : DeviceSocket),
      (sendRecvLoop uuid f fuel i s).2.length ≤ fuel := by
  intro fuel
  induction fuel with
  | zero => intro i s; simp [sendRecvLoop]
  | succ k ih =>
      intro i s
      by_cases hf : f i
      · simp [sendRecvLoop, hf]
      · simp only [sendRecvLoop, hf, if_neg, Bool.false_eq_true,
          List.length_cons]
        exact Nat.succ_le_succ (ih (i + 1) deviceRetrySocket)

theorem sendRecvLoop_all_timeout (uuid : String) (f : ℕ → Bool)
    (h : ∀ i, f i = false) :
    ∀ (fuel i : ℕ) (s : DeviceSocket),
      (sendRecvLoop uuid f fuel i s).1 =
        .ioError "Network timeout. Server is unresponsive." := by
  intro fuel
  induction fuel with
  | zero => intro i s; rfl
  | succ k ih =>
      intro i s
      simp only [sendRecvLoop, h i, Bool.false_eq_true, if_neg]
      exact ih (i + 1) deviceRetrySocket

/-- C6: within one call of the worker's `send_recv`, the request is sent
at most `retries` times in total, and when no reply arrives within the
timeout on every attempt the call raises
`IOError('Network timeout. Server is unresponsive.')` rather than
returning. -/
theorem claimC6_send_recv_retry_bound (uuid : String)
    (serverReplies : ℕ → Bool) (retries : ℕ) :
    (send_recv uuid serverReplies retries).2.length ≤ retries ∧
    ((∀ i, serverReplies i = false) →
      (send_recv uuid serverReplies retries).1 =
        .ioError "Network timeout. Server is unresponsive.") := by
  constructor
  · exact sendRecvLoop_length_le uuid serverReplies retries 0 _
  · intro h
    exact sendRecvLoop_all_timeout uuid serverReplies h retries 0 _

/-- C3: the code does NOT keep the low-level routing identity equal to
the worker uuid across retries.  With a uuid `"a1b2"` and every poll
timing out, the first request goes out on the socket configured by
`Device.start` (identity `some "a1b2"`), but both retries go out on
fresh sockets whose identity was never set (`none`), while the message
header still carries `sender_id = "a1b2"`: the routing identity and the
embedded sender id diverge from the second attempt on. -/
theorem claimC3_identity_divergence :
    send_recv "a1b2" (fun _ => false) 3 =
      (.ioError "Network timeout. Server is unresponsive.",
       [{ socketIdentity := some "a1b2", senderId := "a1b2" },
        { socketIdentity := none, senderId := "a1b2" },
        { socketIdentity := none, senderId := "a1b2" }]) ∧
    ((none : Option String) ≠ some "a1b2") := by
  exact ⟨rfl, by simp⟩

/-- C1: the dispatch step does raise out of the event-loop callback.
When no handler matches the inbound `message_type`,
`BaseServer._dispatch` logs `RESPONDER NOT FOUND` but then still
evaluates `responder(msg.header, msg.content)` with the local never
bound, raising `UnboundLocalError` (and `ServerBase._dispatch` raises
`AttributeError` from the bare `getattr`); when a handler is found and
raises, there is no surrounding `try/except`, so the exception escapes
the dispatch boundary unchanged. -/
theorem claimC1_dispatch_raises (handlers : String → Option Handler)
    (msgType : String) (header content : JVal) :
    (handlers msgType = none →
      baseServerDispatch handlers msgType header content =
        (.error (.unboundLocalError "responder"),
         ["RECEIVING MESSAGE", "RESPONDER NOT FOUND FOR MESSAGE: " ++ msgType]) ∧
      serverBaseDispatch handlers msgType header content =
        .error (.attributeError msgType)) ∧
    (∀ h, handlers msgType = some h →
      (baseServerDispatch handlers msgType header content).1 =
        h header content ∧
      serverBaseDispatch handlers msgType header content =
        h header content) := by
  constructor
  · intro hnone
    simp [baseServerDispatch, serverBaseDispatch, hnone]
  · intro h hsome
    simp [baseServerDispatch, serverBaseDispatch, hsome]

/-- C4 holds only up to `squash_unicode`: a content dict holding the
non-ASCII unicode string `é` is read back with its value coerced to a
UTF-8 bytestring, which is a different Python 2 value (and compares
unequal under Python 2 `==`, since the bytes are not ASCII), so the
round trip does not reproduce such a content exactly. -/
theorem claimC4_counterexample :
    (pack_message (.jstr "ping") "w1"
        (.jdict [(.jstr "k", .justr "é")]) "mid0" 7).toOption.bind msgContent =
      some (.jdict [(.jstr "k", .jstr "é")]) ∧
    (JVal.jdict [(.jstr "k", .jstr "é")] ≠ .jdict [(.jstr "k", .justr "é")]) ∧
    pyEq (.jdict [(.jstr "k", .jstr "é")]) (.jdict [(.jstr "k", .justr "é")]) =
      false := by
  refine ⟨rfl, ?_, by decide⟩
  simp [squash_unicode]

theorem pack_message_fields (t sender_id fid : String) (now : ℚ)
    (entries : List (JVal × JVal)) :
    ∃ m, pack_message (.jstr t) sender_id (.jdict entries) fid now = .ok m ∧
      msgHeaderField m "msg_type" = some (.jstr t) ∧
      msgHeaderField m "sender_id" = some (.jstr sender_id) ∧
      msgContent m = some (squash_unicode (.jdict entries)) ∧
      (squash_unicode (.jdict entries) = .jdict entries →
        msgContent m = some (.jdict entries)) ∧
      msgHeaderField m "msg_id" = some (.jstr fid) ∧
      msgHeaderField m "time" = some (.jnum now) := by
  refine ⟨_, rfl, ?_, ?_, ?_, ?_, ?_, ?_⟩ <;>
    simp [pack_message, squash_unicode, squashDict, squashList,
      msgHeaderField, msgContent, jlookup, keyMatches, List.find?]

/-- C4 (amended): `pack_message` followed by reading the message back
reproduces `message_type` and `sender_id` exactly, and `content` up to
`squash_unicode` (unicode strings coerced to UTF-8 bytestrings; a
content already free of unicode is reproduced exactly), while `msg_id`
and `time` always come from the fresh-uuid and current-time oracles of
the call, never from the caller's three arguments. -/
theorem claimC4_amended_roundtrip (t sender_id fid : String) (now : ℚ)
    (entries : List (JVal × JVal)) :
    ∃ m, pack_message (.jstr t) sender_id (.jdict entries) fid now = .ok m ∧
      msgHeaderField m "msg_type" = some (.jstr t) ∧
      msgHeaderField m "sender_id" = some (.jstr sender_id) ∧
      msgContent m = some (squash_unicode (.jdict entries)) ∧
      (squash_unicode (.jdict entries) = .jdict entries →
        msgContent m = some (.jdict entries)) ∧
      msgHeaderField m "msg_id" = some (.jstr fid) ∧
      msgHeaderField m "time" = some (.jnum now) :=
  pack_message_fields t sender_id fid now entries

/-- C10: every `simulation_done` message makes the handler raise
`TypeError` on its first statement -- the `acknowledge_receipt` call
omits the `content` argument that `BaseServer.send_message` requires --
so no acknowledgement is sent, nothing is logged about the output file,
and no `Trajectory` row is appended, whether or not the reported output
path exists. -/
theorem claimC10_simulation_done_type_error (serverUuid : String)
    (fsExists : String → Bool) (registry : List TrajectoryRecord)
    (senderId : String) (headerTime : ℚ)
    (contentProtocol contentPath : String) (fid : String) (now : ℚ) :
    simulation_done serverUuid fsExists registry senderId headerTime
        contentProtocol contentPath fid now =
      (registry, [],
       .error (.typeError "send_message() takes exactly 4 arguments (3 given)")) :=
  rfl

/-- C9: every `set_beta` reply carries a status that is exactly
`success` or `failure` and goes back to the sender; but the `get_beta`
reply carries the sampler's beta together with the status string
`sucess` -- which is not the string `success` the claim requires. -/
theorem claimC9_beta_reply_status (npPower : ℚ → ℚ → ℚ)
    (serverUuid : String) (st : SamplerState) (senderId : String)
    (contentValue : Option ℚ) (fid : String) (now : ℚ) :
    (sentField (set_beta npPower serverUuid st senderId contentValue fid now).2
        "status" = some (.jstr "success") ∨
     sentField (set_beta npPower serverUuid st senderId contentValue fid now).2
        "status" = some (.jstr "failure")) ∧
    sentTarget (set_beta npPower serverUuid st senderId contentValue fid now).2 =
      some senderId ∧
    sentField (get_beta serverUuid st senderId fid now) "status" =
      some (.jstr "sucess") ∧
    sentField (get_beta serverUuid st senderId fid now) "beta" =
      some (.jnum st.beta) ∧
    sentTarget (get_beta serverUuid st senderId fid now) = some senderId ∧
    (JVal.jstr "sucess" ≠ .jstr "success") := by
  refine ⟨?_, ?_, ?_, ?_, ?_, by simp⟩
  case _ | _ =>
    cases contentValue with
    | none =>
        simp [set_beta, serverSendMessage, pack_message, sentField, sentTarget,
          msgContent, jlookup, keyMatches, squash_unicode, squashDict,
          squashList, List.find?]
    | some v =>
        by_cases hb : st.beta = v
        · simp [set_beta, hb, serverSendMessage, pack_message, sentField,
            sentTarget, msgContent, jlookup, keyMatches, squash_unicode,
            squashDict, squashList, List.find?]
        · cases hres : (reset_weights npPower { st with beta := v }).2 with
          | none =>
              simp [set_beta, hb, hres, serverSendMessage, pack_message,
                sentField, sentTarget, msgContent, jlookup, keyMatches,
                squash_unicode, squashDict, squashList, List.find?]
          | some e =>
              simp [set_beta, hb, hres, serverSendMessage, pack_message,
                sentField, sentTarget, msgContent, jlookup, keyMatches,
                squash_unicode, squashDict, squashList, List.find?]
  all_goals
    simp [get_beta, serverSendMessage, pack_message, sentField, sentTarget,
      msgContent, jlookup, keyMatches, squash_unicode, squashDict,
      squashList, List.find?]

theorem cumsumFrom_length (l : List ℚ) :
    ∀ acc : ℚ, (cumsumFrom acc l).length = l.length := by
  induction l with
  | nil => intro acc; rfl
  | cons x xs ih => intro acc; simp [cumsumFrom, ih]

theorem mem_cumsumFrom_ge (l : List ℚ) (hl : ∀ w ∈ l, 0 ≤ w) :
    ∀ (acc y : ℚ), y ∈ cumsumFrom acc l → acc ≤ y := by
  induction l with
  | nil => intro acc y hy; simp [cumsumFrom] at hy
  | cons x xs ih =>
      intro acc y hy
      have hx : 0 ≤ x := hl x (List.mem_cons_self x xs)
      have hl2 : ∀ w ∈ xs, 0 ≤ w := fun w hw => hl w (List.mem_cons_of_mem x hw)
      simp only [cumsumFrom, List.mem_cons] at hy
      rcases hy with rfl | h
      · linarith
      · have := ih hl2 (acc + x) y h
        linarith

theorem cumsumFrom_sorted (l : List ℚ) (hl : ∀ w ∈ l, 0 ≤ w) :
    ∀ acc : ℚ, (cumsumFrom acc l).Sorted (· ≤ ·) := by
  induction l with
  | nil => intro acc; simp [cumsumFrom]
  | cons x xs ih =>
      intro acc
      have hl2 : ∀ w ∈ xs, 0 ≤ w := fun w hw => hl w (List.mem_cons_of_mem x hw)
      simp only [cumsumFrom, List.sorted_cons]
      exact ⟨fun b hb => mem_cumsumFrom_ge xs hl2 (acc + x) b hb, ih hl2 (acc + x)⟩

theorem sum_mem_cumsumFrom (l : List ℚ) (hne : l ≠ []) :
    ∀ acc : ℚ, acc + l.sum ∈ cumsumFrom acc l := by
  induction l with
  | nil => exact absurd rfl hne
  | cons x xs ih =>
      intro acc
      by_cases hxs : xs = []
      · subst hxs; simp [cumsumFrom]
      · simp only [cumsumFrom, List.mem_cons, List.sum_cons]
        right
        rw [← add_assoc]
        exact ih hxs (acc + x)

theorem cumsumFrom_getLast (l : List ℚ) :
    ∀ acc : ℚ, l ≠ [] →
      (cumsumFrom acc l).getLast? = some (acc + l.sum) := by
  induction l with
  | nil => intro acc h; exact absurd rfl h
  | cons x xs ih =>
      intro acc _
      by_cases hxs : xs = []
      · subst hxs; simp [cumsumFrom]
      · obtain ⟨b, bs, rfl⟩ : ∃ b bs, xs = b :: bs := by
          cases xs with
          | nil => exact absurd rfl hxs
          | cons b bs => exact ⟨b, bs, rfl⟩
        have h2 := ih (acc + x) hxs
        simp only [cumsumFrom] at h2 ⊢
        rw [List.getLast?_cons_cons, h2]
        simp only [List.sum_cons, Option.some.injEq]
        ring

theorem countLt_cons_lt (x : ℚ) (xs : List ℚ) (u : ℚ) (h : x < u) :
    countLt (x :: xs) u = countLt xs u + 1 := by
  simp [countLt, List.filter_cons, h]

theorem countLt_eq_zero (l : List ℚ) (u : ℚ) (h : ∀ y ∈ l, ¬ y < u) :
    countLt l u = 0 := by
  simp only [countLt, List.length_eq_zero]
  rw [List.filter_eq_nil_iff]
  intro a ha
  simpa using h a ha

theorem countLt_spec (u : ℚ) :
    ∀ l : List ℚ, l.Sorted (· ≤ ·) →
      (∀ j, j < countLt l u → ∃ y, l.get? j = some y ∧ y < u) ∧
      (∀ y, l.get? (countLt l u) = some y → u ≤ y) := by
  intro l
  induction l with
  | nil =>
      intro _
      refine ⟨?_, ?_⟩
      · intro j hj; simp [countLt] at hj
      · intro y hy; simp at hy
  | cons x xs ih =>
      intro hs
      rw [List.sorted_cons] at hs
      obtain ⟨hx, hxs⟩ := hs
      obtain ⟨ih1, ih2⟩ := ih hxs
      by_cases hxu : x < u
      · refine ⟨?_, ?_⟩
        · intro j hj
          rw [countLt_cons_lt x xs u hxu] at hj
          cases j with
          | zero => exact ⟨x, rfl, hxu⟩
          | succ k =>
              obtain ⟨y, hy1, hy2⟩ := ih1 k (Nat.lt_of_succ_lt_succ hj)
              exact ⟨y, by simpa using hy1, hy2⟩
        · intro y hy
          rw [countLt_cons_lt x xs u hxu] at hy
          exact ih2 y (by simpa using hy)
      · have h0 : countLt (x :: xs) u = 0 := by
          apply countLt_eq_zero
          intro y hy
          rcases List.mem_cons.mp hy with rfl | hmem
          · exact hxu
          · exact fun hlt => hxu (lt_of_le_of_lt (hx y hmem) hlt)
        refine ⟨?_, ?_⟩
        · intro j hj
          rw [h0] at hj
          exact absurd hj (Nat.not_lt_zero j)
        · intro y hy
          rw [h0] at hy
          simp only [List.get?_cons_zero, Option.some.injEq] at hy
          subst hy
          exact le_of_not_lt hxu

theorem countLt_lt_length (l : List ℚ) (u y : ℚ) (hy : y ∈ l)
    (huy : u ≤ y) : countLt l u < l.length := by
  apply List.length_filter_lt_length_iff_exists.mpr
  exact ⟨y, hy, by simp [not_lt.mpr huy]⟩

theorem registerModel_spec (load : String → MarkovStateModel)
    (computeWeights : MarkovStateModel → List ℚ) (st : SamplerState)
    (fn : String) (hne : computeWeights (load fn) ≠ []) :
    (st.model_fn.getD "" = fn →
      registerModel load computeWeights st fn =
        ({ st with model_fn := some fn }, none)) ∧
    (st.model_fn.getD "" ≠ fn →
      (registerModel load computeWeights st fn).1.model = some (load fn) ∧
      (registerModel load computeWeights st fn).1.weights =
        some (computeWeights (load fn)) ∧
      (st.weights.getD [] = computeWeights (load fn) →
        (registerModel load computeWeights st fn).2 = none) ∧
      (st.weights.getD [] ≠ computeWeights (load fn) →
        ((¬ |(computeWeights (load fn)).sum - 1| < almostEqualTol →
          (registerModel load computeWeights st fn).2 =
            some "The weights dont sum to 1") ∧
         (|(computeWeights (load fn)).sum - 1| < almostEqualTol →
          (registerModel load computeWeights st fn).2 = none)))) := by
  have hlast : (cumsum (computeWeights (load fn))).getLast? =
      some ((computeWeights (load fn)).sum) := by
    simpa [cumsum] using cumsumFrom_getLast (computeWeights (load fn)) 0 hne
  constructor
  · intro h
    simp [registerModel, h]
  · intro h
    by_cases hw : st.weights.getD [] = computeWeights (load fn)
    · refine ⟨?_, ?_, fun _ => ?_, fun hc => absurd hw hc⟩ <;>
        simp [registerModel, h, hookSetWeights, setWeightsTrait, hw]
    · by_cases htol : |(computeWeights (load fn)).sum - 1| < almostEqualTol
      · refine ⟨?_, ?_, fun hc => absurd hc hw,
          fun _ => ⟨fun hc => absurd htol hc, fun _ => ?_⟩⟩ <;>
          simp [registerModel, h, hookSetWeights, setWeightsTrait,
            weights_changed, weightsSumCheck, hw, hlast, htol]
      · refine ⟨?_, ?_, fun hc => absurd hc hw,
          fun _ => ⟨fun _ => ?_, fun hc => absurd hc htol⟩⟩ <;>
          simp [registerModel, h, hookSetWeights, setWeightsTrait,
            weights_changed, weightsSumCheck, hw, hlast, htol]

/-- C2 fails on the code in both directions: registering a model whose
computed weight vector sums to 1.00003 (the sum the spec calls "within
tolerance") raises the weights assertion -- the tolerance of
`assert_almost_equal` at `decimal=7` is `1.5e-7`, not `1e-4` -- and by
the time it raises, the sampler's model reference has already been
swapped to the new model, not left at the previous one. -/
theorem claimC2_counterexample :
    (registerModel (fun _ => mNew) (fun _ => badWeights) st2start "m1.h5").2 =
      some "The weights dont sum to 1" ∧
    (registerModel (fun _ => mNew) (fun _ => badWeights) st2start "m1.h5").1.model =
      some mNew ∧
    st2start.model = some mOld ∧
    mNew ≠ mOld ∧
    badWeights.sum = 100003 / 100000 := by
  have hsum : badWeights.sum = 100003 / 100000 := by
    norm_num [badWeights]
  have habs : |(badWeights.sum : ℚ) - 1| = 3 / 100000 := by
    rw [hsum]
    rw [show (100003 / 100000 : ℚ) - 1 = 3 / 100000 by norm_num]
    exact abs_of_nonneg (by norm_num)
  have hcond : ¬ |(badWeights.sum : ℚ) - 1| < almostEqualTol := by
    rw [habs]
    norm_num [almostEqualTol]
  obtain ⟨-, hmain⟩ :=
    registerModel_spec (fun _ => mNew) (fun _ => badWeights) st2start
      "m1.h5" (by simp [badWeights])
  obtain ⟨hmodel, -, -, hchecked⟩ := hmain (by simp [st2start])
  obtain ⟨herr, -⟩ := hchecked (by simp [st2start, badWeights])
  refine ⟨herr hcond, hmodel, rfl, ?_, hsum⟩
  norm_num [mNew, mOld]

/-- C2 (amended): registering a model under the path already held by
`model_fn` stores the path again and does nothing else (the `Unicode`
trait notifies only on change) -- no reload, no swap, no check.  On a
new path the model reference is swapped to the freshly loaded model and
the computed weights are stored *before* any check; the weights
assertion then runs only when the computed vector differs from the
previously stored one (`CNumpyArray` notifies only when
`np.any(old != new)`), and when it runs, a sum off 1 by `1.5e-7` or
more raises an operator-visible error out of the handler -- with the
new model and the offending weights already installed -- while a sum
within `1.5e-7` registers without error.  A sum of 1.00003 is outside
that tolerance and is rejected. -/
theorem claimC2_amended_registration (load : String → MarkovStateModel)
    (computeWeights : MarkovStateModel → List ℚ) (st : SamplerState)
    (fn : String) (hne : computeWeights (load fn) ≠ []) :
    (st.model_fn.getD "" = fn →
      registerModel load computeWeights st fn =
        ({ st with model_fn := some fn }, none)) ∧
    (st.model_fn.getD "" ≠ fn →
      (registerModel load computeWeights st fn).1.model = some (load fn) ∧
      (registerModel load computeWeights st fn).1.weights =
        some (computeWeights (load fn)) ∧
      (st.weights.getD [] = computeWeights (load fn) →
        (registerModel load computeWeights st fn).2 = none) ∧
      (st.weights.getD [] ≠ computeWeights (load fn) →
        ((¬ |(computeWeights (load fn)).sum - 1| < almostEqualTol →
          (registerModel load computeWeights st fn).2 =
            some "The weights dont sum to 1") ∧
         (|(computeWeights (load fn)).sum - 1| < almostEqualTol →
          (registerModel load computeWeights st fn).2 = none)))) :=
  registerModel_spec load computeWeights st fn hne

theorem claimC2_amended_registration_witness :
    (registerModel (fun _ => mNew) (fun _ => [1]) st2start "m1.h5").1.model =
      some mNew ∧
    (registerModel (fun _ => mNew) (fun _ => [1]) st2start "m1.h5").1.weights =
      some [1] ∧
    (registerModel (fun _ => mNew) (fun _ => [1]) st2start "m1.h5").2 = none := by
  obtain ⟨-, hmain⟩ :=
    claimC2_amended_registration (fun _ => mNew) (fun _ => [1]) st2start
      "m1.h5" (by simp)
  obtain ⟨hmodel, hweights, -, hchecked⟩ := hmain (by simp [st2start])
  exact ⟨hmodel, hweights,
    (hchecked (by simp [st2start])).2 (by norm_num [almostEqualTol])⟩

/-- C5: once a model is registered, `select` computes the index as the
number of cumulative weights strictly below the uniform draw, which --
for a non-decreasing prefix-sum vector of non-negative weights summing
to 1 and a draw in [0,1) -- is exactly the smallest index whose
cumulative weight is at least the draw, and it returns the frame that
`generator_indices` names at that index. -/
theorem claimC5_select_inverse_cdf (st : SamplerState)
    (m : MarkovStateModel) (ws : List ℚ) (u : ℚ) (seedExists : Bool)
    (seedLen r : ℕ)
    (hm : st.model = some m) (hw : st.weights = some ws) (hne : ws ≠ [])
    (hnn : ∀ w ∈ ws, 0 ≤ w) (hsum : ws.sum = 1)
    (hcw : st.cumulative_weights = cumsum ws)
    (hu0 : 0 ≤ u) (hu1 : u < 1)
    (hg : m.generator_indices.length = ws.length)
    (htf : ∀ p ∈ m.generator_indices, p.1 < m.traj_filenames.length) :
    countLt st.cumulative_weights u < st.cumulative_weights.length ∧
    (∃ y, st.cumulative_weights.get? (countLt st.cumulative_weights u) =
        some y ∧ u ≤ y) ∧
    (∀ j, j < countLt st.cumulative_weights u →
        ∃ y, st.cumulative_weights.get? j = some y ∧ y < u) ∧
    (∃ tf, m.generator_indices.get? (countLt st.cumulative_weights u) =
        some tf ∧
      ∃ fname, m.traj_filenames.get? tf.1 = some fname ∧
        centroidSelect st seedExists seedLen r u =
          .ok (.genFrame fname tf.2)) := by
  have hsorted : (cumsum ws).Sorted (· ≤ ·) := cumsumFrom_sorted ws hnn 0
  have hmem1 : (1 : ℚ) ∈ cumsum ws := by
    have h := sum_mem_cumsumFrom ws hne 0
    rw [hsum] at h
    simpa [cumsum] using h
  have hlt : countLt (cumsum ws) u < (cumsum ws).length :=
    countLt_lt_length (cumsum ws) u 1 hmem1 (le_of_lt hu1)
  obtain ⟨hsp1, hsp2⟩ := countLt_spec u (cumsum ws) hsorted
  rw [hcw]
  refine ⟨hlt, ?_, hsp1, ?_⟩
  · exact ⟨(cumsum ws).get ⟨_, hlt⟩, List.get?_eq_get hlt,
      hsp2 _ (List.get?_eq_get hlt)⟩
  · have hlen : (cumsum ws).length = ws.length := cumsumFrom_length ws 0
    have hltg : countLt (cumsum ws) u < m.generator_indices.length := by
      rw [hg, ← hlen]
      exact hlt
    have hgidx := List.get?_eq_get hltg
    set tf := m.generator_indices.get ⟨countLt (cumsum ws) u, hltg⟩ with htfdef
    have htfmem : tf ∈ m.generator_indices := List.get_mem _ _ _
    have htl : tf.1 < m.traj_filenames.length := htf tf htfmem
    have hfidx := List.get?_eq_get htl
    refine ⟨tf, hgidx, m.traj_filenames.get ⟨tf.1, htl⟩, hfidx, ?_⟩
    obtain ⟨w0, rest, rfl⟩ : ∃ w0 rest, ws = w0 :: rest := by
      cases ws with
      | nil => exact absurd rfl hne
      | cons a as => exact ⟨a, as, rfl⟩
    simp only [centroidSelect, hm, hw]
    rw [hcw, hgidx]
    simp only [List.get?_eq_getElem?] at hfidx
    simp [hfidx]

theorem claimC5_select_inverse_cdf_witness :
    countLt st5.cumulative_weights (3 / 4) <
      st5.cumulative_weights.length ∧
    (∃ y, st5.cumulative_weights.get?
        (countLt st5.cumulative_weights (3 / 4)) = some y ∧ (3 / 4 : ℚ) ≤ y) ∧
    (∀ j, j < countLt st5.cumulative_weights (3 / 4) →
        ∃ y, st5.cumulative_weights.get? j = some y ∧ y < (3 / 4 : ℚ)) ∧
    (∃ tf, m5.generator_indices.get?
        (countLt st5.cumulative_weights (3 / 4)) = some tf ∧
      ∃ fname, m5.traj_filenames.get? tf.1 = some fname ∧
        centroidSelect st5 true 0 0 (3 / 4) = .ok (.genFrame fname tf.2)) :=
  claimC5_select_inverse_cdf st5 m5 [1 / 2, 1 / 2] (3 / 4) true 0 0
    rfl rfl (by simp) (by norm_num [List.forall_mem_cons])
    (by norm_num [List.sum_cons, List.sum_nil])
    (by norm_num [st5, cumsum, cumsumFrom]) (by norm_num) (by norm_num)
    rfl (by decide)

/-- C7: with beta = 1 the exponent `beta - 1` is zero, so every state's
(epsilon-floored) count is raised to the zeroth power; after
normalization `reset_weights` therefore yields the uniform distribution
`1/n` over the `n` known states, whatever the counts were. -/
theorem claimC7_uniform_weights_beta_one (npPower : ℚ → ℚ → ℚ)
    (m : MarkovStateModel) (n : ℕ) (hpow : ∀ x : ℚ, npPower x 0 = 1)
    (hn : m.counts.length = n) (hpos : 0 < n) :
    countsWeights npPower 1 m = List.replicate n ((n : ℚ))⁻¹ := by
  have hmap : ∀ l : List ℚ,
      l.map (fun c => npPower c 0) = List.replicate l.length 1 := by
    intro l
    induction l with
    | nil => rfl
    | cons a as ih => simp [List.replicate_succ, hpow, ih]
  have hn0 : (0 : ℕ) < n := hpos
  subst hn
  simp only [countsWeights, sub_self]
  simp only [hmap, List.length_map, List.sum_replicate, List.map_replicate]
  simp only [nsmul_eq_mul, mul_one, one_div]

theorem claimC7_uniform_weights_beta_one_witness :
    countsWeights pow0 1 c7model = List.replicate 3 (((3 : ℕ) : ℚ))⁻¹ :=
  claimC7_uniform_weights_beta_one pow0 c7model 3 (fun x => by simp [pow0])
    rfl (by decide)

/-- C8: a simulator registering while the sampler has never seen a model
(model unset, or weights unset or empty) gets a `simulate` assignment
whose starting structure is the seed-structures frame at the uniform
draw -- the selection reads only the configured seed file and the draw,
never the model. -/
theorem claimC8_register_simulator_seed (build : Selection → String)
    (serverUuid ssdir trajdir topo : String) (st : SamplerState)
    (seedLen r : ℕ) (u : ℚ) (senderId traj_format fid : String) (now : ℚ)
    (hfallback : st.model = none ∨ st.weights = none ∨ st.weights = some [])
    (hseed : seedLen ≠ 0) :
    ∃ rep, register_Simulator build serverUuid ssdir trajdir topo st true
        seedLen r u senderId ".xml" traj_format fid now = .ok rep ∧
      rep.selection = .seedFrame st.seed_structures (r % seedLen) ∧
      rep.written_state = build (.seedFrame st.seed_structures (r % seedLen)) ∧
      msgHeaderField rep.message "msg_type" = some (.jstr "simulate") ∧
      rep.target = senderId := by
  have hbase : baseSelect st true seedLen r =
      .ok (.seedFrame st.seed_structures (r % seedLen)) := by
    simp [baseSelect, hseed]
  have hsel : centroidSelect st true seedLen r u =
      .ok (.seedFrame st.seed_structures (r % seedLen)) := by
    rcases hfallback with h | h | h
    · simp [centroidSelect, h, hbase]
    · cases hm2 : st.model with
      | none => simp [centroidSelect, hm2, hbase]
      | some m => simp [centroidSelect, hm2, h, hbase]
    · cases hm2 : st.model with
      | none => simp [centroidSelect, hm2, hbase]
      | some m => simp [centroidSelect, hm2, h, hbase]
  obtain ⟨msg, hpack, hmt, -, -, -, -, -⟩ :=
    pack_message_fields "simulate" serverUuid fid now
      [(.jstr "starting_state", .jdict [
          (.jstr "protocol", .jstr "localfs"),
          (.jstr "path", .jstr (ssdir ++ "/" ++ senderId ++ "." ++ ".xml"))]),
       (.jstr "topology_pdb", .jdict [
          (.jstr "protocol", .jstr "localfs"),
          (.jstr "path", .jstr topo)]),
       (.jstr "output", .jdict [
          (.jstr "protocol", .jstr "localfs"),
          (.jstr "path", .jstr (trajdir ++ "/" ++ senderId ++ traj_format))])]
  refine ⟨⟨ssdir ++ "/" ++ senderId ++ "." ++ ".xml",
    build (.seedFrame st.seed_structures (r % seedLen)),
    .seedFrame st.seed_structures (r % seedLen), senderId, msg⟩,
    ?_, rfl, rfl, hmt, rfl⟩
  simp [register_Simulator, hsel, hpack]

theorem claimC8_register_simulator_seed_witness :
    ∃ rep, register_Simulator (fun _ => "SERIALIZED") "srv" "ss" "trajs"
        "top.pdb" st8 true 4 6 (1 / 2) "w1" ".xml" ".h5" "mid" 3 = .ok rep ∧
      rep.selection = .seedFrame st8.seed_structures (6 % 4) ∧
      rep.written_state = "SERIALIZED" ∧
      msgHeaderField rep.message "msg_type" = some (.jstr "simulate") ∧
      rep.target = "w1" :=
  claimC8_register_simulator_seed (fun _ => "SERIALIZED") "srv" "ss" "trajs"
    "top.pdb" st8 4 6 (1 / 2) "w1" ".h5" "mid" 3 (Or.inl rfl) (by decide)

end MSMAccelerator
